import Mathlib

/-!
Shallow embedding of the PIN screen state machine (`PinScreen` in the
mobile app source).  The screen owns a 4-digit input buffer, a configure
phase for the set/reset flow, a retry counter persisted in key-value
storage, and a lockout modal flag; it talks to an external credential
store (active PIN, staged new PIN) and reports outcomes through a result
callback.  We model the component state plus the external store as one
record, and the observable external effects (callbacks, alerts,
credential wipe, restart, navigation) as a list of events emitted by each
operation.
-/

namespace PinCode

/-- PIN_COUNT from the source: a PIN has 4 digits. -/
def PIN_COUNT : Nat := 4

/-- PIN_TRY_MAX from the source: 10 wrong attempts trigger the lockout
prompt. -/
def PIN_TRY_MAX : Nat := 10

/-- PinType from the source: "set" | "auth" | "reset". -/
inductive PinType
  | set
  | auth
  | reset
deriving DecidableEq

/-- pinConfigurePhase values from the source: "input" | "confirm" |
"done". -/
inductive ConfigurePhase
  | input
  | confirm
  | done
deriving DecidableEq

/-- The external credential store (useCredentialProvider): the active PIN
(getPin/savePin) and the staged new PIN (getNewPin/saveNewPin/resetNewPin).
A JavaScript string is modelled as a list of characters; the empty list is
the empty string, which the source treats as "unset". -/
structure CredentialStore where
  pin : List Char
  newPin : List Char
deriving DecidableEq

/-- The component state of PinScreen together with the external stores it
reads and writes.  `pinTryCount` is the React state copy of the retry
counter, `storedTryCount` the durable AsyncStorage value under
PIN_TRY_COUNT (absent is read as 0, so a plain Nat suffices). -/
structure PinState where
  pinType : PinType
  inputPin : List Char
  pinConfigurePhase : ConfigurePhase
  pinTryCount : Nat
  storedTryCount : Nat
  visibleResetModal : Bool
  store : CredentialStore
deriving DecidableEq

/-- Observable external effects of the screen: the result callback with
its boolean, success/error alerts (dispatchAlert), the credential wipe
(removeKeys), the forced application restart (RNRestart.restart), the
navigation pop of the defer action, and the console log of a swallowed
biometric error. -/
inductive Event
  | resultCallback (matched : Bool)
  | alertSuccess
  | alertError
  | removeKeys
  | restart
  | navigationPop
  | logError
deriving DecidableEq

/-- handleInput from the source: if the buffer already has PIN_COUNT
characters the press is ignored, otherwise the pressed value is appended
(the keypad only ever passes single-digit strings). -/
def handleInput (inputPin value : List Char) : List Char :=
  if PIN_COUNT ≤ inputPin.length then inputPin
  else inputPin ++ value

/-- handleDelete from the source: the guard is the literal condition
`inputPin.length <= 0 && inputPin.length >= PIN_COUNT` of the code, and
the new value is `inputPin.slice(0, -1)`, i.e. the string without its
last character (the empty string for the empty string), which is
List.dropLast. -/
def handleDelete (inputPin : List Char) : List Char :=
  if inputPin.length ≤ 0 ∧ PIN_COUNT ≤ inputPin.length then inputPin
  else inputPin.dropLast

/-- clearInputPin: set the buffer to the empty string. -/
def clearInputPin (s : PinState) : PinState :=
  { s with inputPin := [] }

/-- resetPinTryCount: hide the reset modal, set the in-memory counter to
0 and write 0 to AsyncStorage. -/
def resetPinTryCount (s : PinState) : PinState :=
  { s with visibleResetModal := false, pinTryCount := 0, storedTryCount := 0 }

/-- increasePinTryCount: increment the in-memory counter and write the
new value to AsyncStorage. -/
def increasePinTryCount (s : PinState) : PinState :=
  { s with pinTryCount := s.pinTryCount + 1, storedTryCount := s.pinTryCount + 1 }

/-- initPinTryCount: load the persisted counter into React state
(AsyncStorage.getItem, absent read as "0"). -/
def initPinTryCount (s : PinState) : PinState :=
  { s with pinTryCount := s.storedTryCount }

/-- The lockout check run on screen focus and whenever pinTryCount
changes: `type === "auth" && pinTryCount >= PIN_TRY_MAX &&
setVisibleResetModal(true)`.  It only ever turns the modal on. -/
def lockoutCheck (s : PinState) : PinState :=
  if s.pinType = PinType.auth ∧ PIN_TRY_MAX ≤ s.pinTryCount then
    { s with visibleResetModal := true }
  else s

/-- Whether the pre-lockout warning text is rendered (the source renders
it when `pinType === "auth" && pinTryCount >= PIN_TRY_MAX - 1`). -/
def preLockoutWarning (s : PinState) : Bool :=
  decide (s.pinType = PinType.auth ∧ PIN_TRY_MAX - 1 ≤ s.pinTryCount)

/-- handlePin from the source, the evaluation effect that runs when the
buffer changes.  In auth mode with a complete buffer it reads the stored
PIN, treats the empty stored value or an equal buffer as a match, resets
or increments the retry counter, clears the buffer and reports the
outcome.  In set/reset mode with a complete buffer it either stages the
buffer as the new PIN and moves the phase to confirm, or compares the
staged PIN with the buffer: on a match it persists the PIN, raises the
success alert, moves the phase to done unless the mode is reset, resets
the retry counter and reports success; on a mismatch it raises the error
alert and moves the phase back to input; both comparison branches clear
the staged PIN, and the buffer is cleared in every complete-buffer
branch. -/
def handlePin (s : PinState) : PinState × List Event :=
  match s.pinType with
  | PinType.auth =>
      if s.inputPin.length = PIN_COUNT then
        let v := s.store.pin
        if v = [] ∨ s.inputPin = v then
          (clearInputPin (resetPinTryCount s), [Event.resultCallback true])
        else
          (clearInputPin (increasePinTryCount s), [Event.resultCallback false])
      else (s, [])
  | PinType.set | PinType.reset =>
      if s.inputPin.length = PIN_COUNT then
        let newPin := s.store.newPin
        if newPin = [] then
          let s1 := { s with store := { s.store with newPin := s.inputPin },
                             pinConfigurePhase := ConfigurePhase.confirm }
          (clearInputPin s1, [])
        else
          if newPin = s.inputPin then
            let s1 := { s with store := { s.store with pin := s.inputPin } }
            let s2 := if s1.pinType ≠ PinType.reset then
                        { s1 with pinConfigurePhase := ConfigurePhase.done }
                      else s1
            let s3 := resetPinTryCount s2
            let s4 := { s3 with store := { s3.store with newPin := [] } }
            (clearInputPin s4, [Event.alertSuccess, Event.resultCallback true])
          else
            let s1 := { s with pinConfigurePhase := ConfigurePhase.input,
                               store := { s.store with newPin := [] } }
            (clearInputPin s1, [Event.alertError])
      else (s, [])

/-- onResetPin from the source: wipe all stored credentials through the
external store (removeKeys) and then force an application restart. -/
def onResetPin (s : PinState) : PinState × List Event :=
  ({ s with store := { pin := [], newPin := [] } },
   [Event.removeKeys, Event.restart])

/-- The biometric shortcut effect (useAsyncEffect on pinType): if the
mode is not auth or no biometric capability is reported
(`biometricType === null`) nothing happens; otherwise the scanner is
invoked and, on success, the result callback fires with true, while a
failure is caught and only logged.  The scanner outcome is the external
parameter `succeeded`. -/
def biometricEffect (s : PinState) (biometricType : Option String)
    (succeeded : Bool) : PinState × List Event :=
  if s.pinType ≠ PinType.auth ∨ biometricType = none then (s, [])
  else if succeeded then (s, [Event.resultCallback true])
  else (s, [Event.logError])

/-- The user-visible and system events the screen reacts to.  A digit
press runs handleInput, then the handlePin effect on the new buffer, then
the retry-count lockout check; delete runs handleDelete and the handlePin
effect; focus runs the focus-time lockout check, reloads the persisted
counter and re-runs the lockout check for the changed counter; blur is
the focus-effect cleanup hiding the modal; the modal actions are its
positive (onResetPin) and negative (navigation.pop) callbacks; the
biometric attempt carries the externally reported capability and scanner
outcome. -/
inductive Action
  | press (digit : Char)
  | delete
  | focus
  | blur
  | modalConfirm
  | modalDefer
  | biometricAttempt (biometricType : Option String) (succeeded : Bool)

/-- One screen event step: the state transition and the emitted events. -/
def step (s : PinState) : Action → PinState × List Event
  | Action.press d =>
      let p := handlePin { s with inputPin := handleInput s.inputPin [d] }
      (lockoutCheck p.1, p.2)
  | Action.delete =>
      handlePin { s with inputPin := handleDelete s.inputPin }
  | Action.focus =>
      (lockoutCheck (initPinTryCount (lockoutCheck s)), [])
  | Action.blur =>
      ({ s with visibleResetModal := false }, [])
  | Action.modalConfirm => onResetPin s
  | Action.modalDefer => (s, [Event.navigationPop])
  | Action.biometricAttempt bt succeeded => biometricEffect s bt succeeded

/-- Run a sequence of screen events, ignoring the emitted events. -/
def run : PinState → List Action → PinState
  | s, [] => s
  | s, a :: rest => run (step s a).1 rest

/-- Fold a sequence of single-digit keypad presses through handleInput,
starting from the buffer `b`. -/
def appendDigits (b : List Char) (ds : List Char) : List Char :=
  ds.foldl (fun acc d => handleInput acc [d]) b

/-- Convenience constructor for concrete screen states used in the
witness examples: the stored and in-memory retry counters agree and the
reset modal starts hidden, as on a fresh screen. -/
def mkState (ty : PinType) (input : List Char) (ph : ConfigurePhase)
    (cnt : Nat) (pin newPin : List Char) : PinState :=
  { pinType := ty, inputPin := input, pinConfigurePhase := ph,
    pinTryCount := cnt, storedTryCount := cnt, visibleResetModal := false,
    store := { pin := pin, newPin := newPin } }

/-! Helper lemmas about the individual operations. -/

theorem handlePin_pinType (s : PinState) : (handlePin s).1.pinType = s.pinType := by
  rcases s with ⟨ty, ip, ph, c, st, vis, p, np⟩
  cases ty <;>
    simp only [handlePin] <;>
    split_ifs <;>
    rfl

theorem handlePin_not_complete (s : PinState)
    (h : s.inputPin.length ≠ PIN_COUNT) : handlePin s = (s, []) := by
  rcases s with ⟨ty, ip, ph, c, st, vis, p, np⟩
  cases ty <;> simp_all [handlePin]

theorem handlePin_clears (s : PinState)
    (h : s.inputPin.length = PIN_COUNT) : (handlePin s).1.inputPin = [] := by
  rcases s with ⟨ty, ip, ph, c, st, vis, p, np⟩
  cases ty <;>
    simp only [handlePin, h, if_true, eq_self_iff_true] <;>
    split_ifs <;>
    rfl

theorem handlePin_visible (s : PinState)
    (h : s.visibleResetModal = false) :
    (handlePin s).1.visibleResetModal = false := by
  rcases s with ⟨ty, ip, ph, c, st, vis, p, np⟩
  subst h
  cases ty <;>
    simp only [handlePin] <;>
    split_ifs <;>
    rfl

theorem lockoutCheck_pinType (s : PinState) :
    (lockoutCheck s).pinType = s.pinType := by
  unfold lockoutCheck
  split_ifs <;> rfl

theorem lockoutCheck_not_auth (s : PinState)
    (h : s.pinType ≠ PinType.auth) : lockoutCheck s = s := by
  unfold lockoutCheck
  rw [if_neg]
  rintro ⟨h1, -⟩
  exact h h1

theorem biometricEffect_fst (s : PinState) (bt : Option String) (b : Bool) :
    (biometricEffect s bt b).1 = s := by
  unfold biometricEffect
  split_ifs <;> rfl

theorem step_not_auth (s : PinState) (a : Action)
    (hty : s.pinType ≠ PinType.auth) (hv : s.visibleResetModal = false) :
    (step s a).1.visibleResetModal = false ∧ (step s a).1.pinType = s.pinType := by
  cases a with
  | press d =>
      have hty1 : (handlePin
          { s with inputPin := handleInput s.inputPin [d] }).1.pinType
          ≠ PinType.auth := by
        rw [handlePin_pinType]; exact hty
      have hv1 := handlePin_visible
        { s with inputPin := handleInput s.inputPin [d] } hv
      constructor
      · show (lockoutCheck _).visibleResetModal = false
        rw [lockoutCheck_not_auth _ hty1]; exact hv1
      · show (lockoutCheck _).pinType = s.pinType
        rw [lockoutCheck_not_auth _ hty1, handlePin_pinType]
  | delete =>
      exact ⟨handlePin_visible { s with inputPin := handleDelete s.inputPin } hv,
             handlePin_pinType { s with inputPin := handleDelete s.inputPin }⟩
  | focus =>
      have h1 : lockoutCheck s = s := lockoutCheck_not_auth s hty
      have hty2 : (initPinTryCount s).pinType ≠ PinType.auth := hty
      have h2 : lockoutCheck (initPinTryCount s) = initPinTryCount s :=
        lockoutCheck_not_auth _ hty2
      constructor
      · show (lockoutCheck (initPinTryCount (lockoutCheck s))).visibleResetModal = false
        rw [h1, h2]; exact hv
      · show (lockoutCheck (initPinTryCount (lockoutCheck s))).pinType = s.pinType
        rw [h1, h2]; rfl
  | blur => exact ⟨rfl, rfl⟩
  | modalConfirm => exact ⟨hv, rfl⟩
  | modalDefer => exact ⟨hv, rfl⟩
  | biometricAttempt bt b =>
      constructor
      · show (biometricEffect s bt b).1.visibleResetModal = false
        rw [biometricEffect_fst]; exact hv
      · show (biometricEffect s bt b).1.pinType = s.pinType
        rw [biometricEffect_fst]

theorem run_not_auth : ∀ (acts : List Action) (s : PinState),
    s.pinType ≠ PinType.auth → s.visibleResetModal = false →
    (run s acts).visibleResetModal = false
  | [], _, _, hv => hv
  | a :: rest, s, hty, hv => by
      have h := step_not_auth s a hty hv
      exact run_not_auth rest (step s a).1 (fun hc => hty (h.2 ▸ hc)) h.1

theorem handleInput_length_le (b : List Char) (d : Char)
    (h : b.length ≤ PIN_COUNT) : (handleInput b [d]).length ≤ PIN_COUNT := by
  unfold handleInput
  split_ifs with hb
  · exact h
  · push_neg at hb
    simpa using hb

theorem appendDigits_length_le : ∀ (ds : List Char) (b : List Char),
    b.length ≤ PIN_COUNT → (appendDigits b ds).length ≤ PIN_COUNT
  | [], _, h => h
  | d :: ds, b, h =>
      appendDigits_length_le ds (handleInput b [d]) (handleInput_length_le b d h)

theorem appendDigits_length_eq : ∀ (ds : List Char) (b : List Char),
    b.length + ds.length ≤ PIN_COUNT →
    (appendDigits b ds).length = b.length + ds.length
  | [], _, _ => rfl
  | d :: ds, b, h => by
      simp only [List.length_cons] at h
      have hblt : b.length < PIN_COUNT := by omega
      have hstep : handleInput b [d] = b ++ [d] := by
        unfold handleInput
        rw [if_neg (by omega)]
      have hrec := appendDigits_length_eq ds (b ++ [d])
        (by simp only [List.length_append, List.length_cons,
              List.length_nil]; omega)
      show (appendDigits (handleInput b [d]) ds).length = _
      rw [hstep, hrec]
      simp only [List.length_append, List.length_cons, List.length_nil]
      omega

/-! Claim theorems. -/

/-- C1: in Authenticate mode, when the buffer has 4 digits and a
non-empty PIN is stored, evaluation compares the buffer to the stored
PIN: on a match the retry count is reset to 0, the buffer is cleared and
the result callback fires with success; on a mismatch the retry count is
incremented by exactly 1, the buffer is cleared and the result callback
fires with failure. -/
theorem auth_eval_compares_stored_pin (s : PinState)
    (hmode : s.pinType = PinType.auth) (hpin : s.store.pin ≠ [])
    (hlen : s.inputPin.length = PIN_COUNT) :
    (s.inputPin = s.store.pin →
      (handlePin s).1.pinTryCount = 0 ∧
      (handlePin s).1.storedTryCount = 0 ∧
      (handlePin s).1.inputPin = [] ∧
      (handlePin s).2 = [Event.resultCallback true]) ∧
    (s.inputPin ≠ s.store.pin →
      (handlePin s).1.pinTryCount = s.pinTryCount + 1 ∧
      (handlePin s).1.storedTryCount = s.pinTryCount + 1 ∧
      (handlePin s).1.inputPin = [] ∧
      (handlePin s).2 = [Event.resultCallback false]) := by
  rcases s with ⟨ty, ip, ph, c, st, vis, p, np⟩
  simp only at hmode hpin hlen ⊢
  subst hmode
  constructor
  · intro hm
    simp_all [handlePin, clearInputPin, resetPinTryCount]
  · intro hm
    simp_all [handlePin, clearInputPin, increasePinTryCount]

/-- Witness for C1 at stored PIN "1234": input "1234" succeeds and
resets the counter, input "0000" fails and bumps it from 3 to 4. -/
theorem auth_eval_compares_stored_pin_witness :
    (handlePin (mkState PinType.auth [ '1', '2', '3', '4']
        ConfigurePhase.input 3 [ '1', '2', '3', '4'] [])).1.pinTryCount = 0 ∧
    (handlePin (mkState PinType.auth [ '1', '2', '3', '4']
        ConfigurePhase.input 3 [ '1', '2', '3', '4'] [])).2
      = [Event.resultCallback true] ∧
    (handlePin (mkState PinType.auth [ '0', '0', '0', '0']
        ConfigurePhase.input 3 [ '1', '2', '3', '4'] [])).1.pinTryCount = 4 ∧
    (handlePin (mkState PinType.auth [ '0', '0', '0', '0']
        ConfigurePhase.input 3 [ '1', '2', '3', '4'] [])).2
      = [Event.resultCallback false] := by
  have h1 := (auth_eval_compares_stored_pin
    (mkState PinType.auth [ '1', '2', '3', '4'] ConfigurePhase.input 3
      [ '1', '2', '3', '4'] []) rfl (by decide) (by decide)).1 (by decide)
  have h2 := (auth_eval_compares_stored_pin
    (mkState PinType.auth [ '0', '0', '0', '0'] ConfigurePhase.input 3
      [ '1', '2', '3', '4'] []) rfl (by decide) (by decide)).2 (by decide)
  exact ⟨h1.1, h1.2.2.2, h2.1, h2.2.2.2⟩

/-- C2: in Authenticate mode with no stored PIN, every completed 4-digit
input counts as a match: success is reported and the retry count is
reset to 0 (in memory and in storage), never incremented. -/
theorem auth_eval_empty_pin_passthrough (s : PinState)
    (hmode : s.pinType = PinType.auth) (hpin : s.store.pin = [])
    (hlen : s.inputPin.length = PIN_COUNT) :
    (handlePin s).1.pinTryCount = 0 ∧
    (handlePin s).1.storedTryCount = 0 ∧
    (handlePin s).1.inputPin = [] ∧
    (handlePin s).2 = [Event.resultCallback true] := by
  rcases s with ⟨ty, ip, ph, c, st, vis, p, np⟩
  simp only at hmode hpin hlen ⊢
  subst hmode
  simp_all [handlePin, clearInputPin, resetPinTryCount]

/-- Witness for C2: with no stored PIN, the arbitrary input "9999"
reports success and the counter drops from 7 to 0. -/
theorem auth_eval_empty_pin_passthrough_witness :
    (handlePin (mkState PinType.auth [ '9', '9', '9', '9']
        ConfigurePhase.input 7 [] [])).1.pinTryCount = 0 ∧
    (handlePin (mkState PinType.auth [ '9', '9', '9', '9']
        ConfigurePhase.input 7 [] [])).2 = [Event.resultCallback true] := by
  have h := auth_eval_empty_pin_passthrough
    (mkState PinType.auth [ '9', '9', '9', '9'] ConfigurePhase.input 7 [] [])
    rfl rfl (by decide)
  exact ⟨h.1, h.2.2.2⟩

/-- C3: in Set/Reset mode with a complete buffer: with no staged pending
PIN, the buffer is staged and the phase moves to confirm; with a staged
pending PIN equal to the buffer, the PIN is persisted, success is
reported, the phase moves to done in set mode and stays put in reset
mode; with a differing staged PIN the phase returns to input; both
comparison branches clear the staged PIN and the buffer. -/
theorem set_reset_configure_flow (s : PinState)
    (hmode : s.pinType = PinType.set ∨ s.pinType = PinType.reset)
    (hlen : s.inputPin.length = PIN_COUNT) :
    (s.store.newPin = [] →
      (handlePin s).1.store.newPin = s.inputPin ∧
      (handlePin s).1.pinConfigurePhase = ConfigurePhase.confirm ∧
      (handlePin s).1.inputPin = []) ∧
    (s.store.newPin ≠ [] → s.store.newPin = s.inputPin →
      (handlePin s).1.store.pin = s.inputPin ∧
      (handlePin s).2 = [Event.alertSuccess, Event.resultCallback true] ∧
      (s.pinType = PinType.set →
        (handlePin s).1.pinConfigurePhase = ConfigurePhase.done) ∧
      (s.pinType = PinType.reset →
        (handlePin s).1.pinConfigurePhase = s.pinConfigurePhase) ∧
      (handlePin s).1.store.newPin = [] ∧
      (handlePin s).1.inputPin = []) ∧
    (s.store.newPin ≠ [] → s.store.newPin ≠ s.inputPin →
      (handlePin s).1.pinConfigurePhase = ConfigurePhase.input ∧
      (handlePin s).1.store.newPin = [] ∧
      (handlePin s).1.inputPin = []) := by
  rcases s with ⟨ty, ip, ph, c, st, vis, p, np⟩
  simp only at hmode hlen ⊢
  rcases hmode with hmode | hmode <;> subst hmode <;>
    refine ⟨fun hnew => ?_, fun hnew hm => ?_, fun hnew hm => ?_⟩ <;>
    simp_all [handlePin, clearInputPin, resetPinTryCount]

/-- Witness for C3 in set mode: first entry "1234" is staged and the
phase moves to confirm; matching confirmation persists the PIN, reports
success and reaches done; a mismatching confirmation returns to input;
and in reset mode a matching confirmation leaves the phase at confirm. -/
theorem set_reset_configure_flow_witness :
    ((handlePin (mkState PinType.set [ '1', '2', '3', '4']
        ConfigurePhase.input 0 [] [])).1.store.newPin = [ '1', '2', '3', '4'] ∧
     (handlePin (mkState PinType.set [ '1', '2', '3', '4']
        ConfigurePhase.input 0 [] [])).1.pinConfigurePhase
        = ConfigurePhase.confirm) ∧
    ((handlePin (mkState PinType.set [ '1', '2', '3', '4']
        ConfigurePhase.confirm 0 [] [ '1', '2', '3', '4'])).1.store.pin
        = [ '1', '2', '3', '4'] ∧
     (handlePin (mkState PinType.set [ '1', '2', '3', '4']
        ConfigurePhase.confirm 0 [] [ '1', '2', '3', '4'])).1.pinConfigurePhase
        = ConfigurePhase.done) ∧
    (handlePin (mkState PinType.set [ '5', '6', '7', '8']
        ConfigurePhase.confirm 0 [] [ '1', '2', '3', '4'])).1.pinConfigurePhase
        = ConfigurePhase.input ∧
    (handlePin (mkState PinType.reset [ '1', '2', '3', '4']
        ConfigurePhase.confirm 0 [] [ '1', '2', '3', '4'])).1.pinConfigurePhase
        = ConfigurePhase.confirm := by
  have h1 := (set_reset_configure_flow
    (mkState PinType.set [ '1', '2', '3', '4'] ConfigurePhase.input 0 [] [])
    (Or.inl rfl) (by decide)).1 rfl
  have h2 := ((set_reset_configure_flow
    (mkState PinType.set [ '1', '2', '3', '4'] ConfigurePhase.confirm 0 []
      [ '1', '2', '3', '4']) (Or.inl rfl) (by decide)).2.1
    (by decide) (by decide))
  have h3 := ((set_reset_configure_flow
    (mkState PinType.set [ '5', '6', '7', '8'] ConfigurePhase.confirm 0 []
      [ '1', '2', '3', '4']) (Or.inl rfl) (by decide)).2.2
    (by decide) (by decide))
  have h4 := ((set_reset_configure_flow
    (mkState PinType.reset [ '1', '2', '3', '4'] ConfigurePhase.confirm 0 []
      [ '1', '2', '3', '4']) (Or.inr rfl) (by decide)).2.1
    (by decide) (by decide))
  exact ⟨⟨h1.1, h1.2.1⟩, ⟨h2.1, h2.2.2.1 rfl⟩, h3.1, h4.2.2.2.1 rfl⟩

/-- C5: evaluation of a completed buffer is not repeatable: one
evaluation empties the buffer, so a second evaluation with no
intervening input is the identity, emits no events and in particular
cannot change the retry count again. -/
theorem eval_not_repeatable (s : PinState)
    (h : s.inputPin.length = PIN_COUNT) :
    (handlePin s).1.inputPin = [] ∧
    handlePin (handlePin s).1 = ((handlePin s).1, []) ∧
    (handlePin (handlePin s).1).1.pinTryCount = (handlePin s).1.pinTryCount := by
  have h1 := handlePin_clears s h
  have h2 : (handlePin s).1.inputPin.length ≠ PIN_COUNT := by
    rw [h1]; decide
  have h3 := handlePin_not_complete (handlePin s).1 h2
  exact ⟨h1, h3, by rw [h3]⟩

/-- Witness for C5: after a wrong attempt from count 3, the buffer is
empty and re-running the evaluation changes nothing. -/
theorem eval_not_repeatable_witness :
    (handlePin (mkState PinType.auth [ '0', '0', '0', '0']
        ConfigurePhase.input 3 [ '1', '2', '3', '4'] [])).1.inputPin = [] ∧
    handlePin (handlePin (mkState PinType.auth [ '0', '0', '0', '0']
        ConfigurePhase.input 3 [ '1', '2', '3', '4'] [])).1
      = ((handlePin (mkState PinType.auth [ '0', '0', '0', '0']
          ConfigurePhase.input 3 [ '1', '2', '3', '4'] [])).1, []) :=
  ⟨(eval_not_repeatable (mkState PinType.auth [ '0', '0', '0', '0']
      ConfigurePhase.input 3 [ '1', '2', '3', '4'] []) (by decide)).1,
   (eval_not_repeatable (mkState PinType.auth [ '0', '0', '0', '0']
      ConfigurePhase.input 3 [ '1', '2', '3', '4'] []) (by decide)).2.1⟩

/-- C4: the lockout check turns the prompt visible exactly when the mode
is Authenticate and the retry count is at least PIN_TRY_MAX = 10; from a
hidden prompt, no sequence of screen events can show it in Set/Reset
mode; and at retry count 9 in Authenticate mode the check leaves the
prompt hidden while the pre-lockout warning text is rendered. -/
theorem lockout_prompt_visibility (s : PinState) (acts : List Action) :
    (s.visibleResetModal = false →
      ((lockoutCheck s).visibleResetModal = true ↔
        (s.pinType = PinType.auth ∧ PIN_TRY_MAX ≤ s.pinTryCount))) ∧
    (s.pinType ≠ PinType.auth → s.visibleResetModal = false →
      (run s acts).visibleResetModal = false) ∧
    (s.pinType = PinType.auth → s.pinTryCount = 9 →
      s.visibleResetModal = false →
      (lockoutCheck s).visibleResetModal = false ∧
      preLockoutWarning s = true) := by
  refine ⟨fun hv => ?_, run_not_auth acts s, fun hauth h9 hv => ?_⟩
  · by_cases hc : s.pinType = PinType.auth ∧ PIN_TRY_MAX ≤ s.pinTryCount
    · simp [lockoutCheck, hc]
    · simp [lockoutCheck, hc, hv]
  · constructor
    · have hc : ¬ (s.pinType = PinType.auth ∧ PIN_TRY_MAX ≤ s.pinTryCount) := by
        rintro ⟨-, hle⟩
        rw [h9] at hle
        exact absurd hle (by decide)
      simp [lockoutCheck, hc, hv]
    · simp [preLockoutWarning, hauth, h9, PIN_TRY_MAX]

/-- Witness for C4: a set-mode screen never shows the prompt across a
press and a focus event; an auth-mode screen at count 9 keeps the prompt
hidden while showing the warning; at count 10 the check shows it. -/
theorem lockout_prompt_visibility_witness :
    (run (mkState PinType.set [] ConfigurePhase.input 0 [] [])
      [Action.press '1', Action.focus]).visibleResetModal = false ∧
    ((lockoutCheck (mkState PinType.auth [] ConfigurePhase.input 9
        [ '1', '2', '3', '4'] [])).visibleResetModal = false ∧
      preLockoutWarning (mkState PinType.auth [] ConfigurePhase.input 9
        [ '1', '2', '3', '4'] []) = true) ∧
    (lockoutCheck (mkState PinType.auth [] ConfigurePhase.input 10
        [ '1', '2', '3', '4'] [])).visibleResetModal = true :=
  ⟨(lockout_prompt_visibility
      (mkState PinType.set [] ConfigurePhase.input 0 [] [])
      [Action.press '1', Action.focus]).2.1 (by decide) rfl,
   (lockout_prompt_visibility
      (mkState PinType.auth [] ConfigurePhase.input 9
        [ '1', '2', '3', '4'] []) []).2.2 rfl rfl rfl,
   ((lockout_prompt_visibility
      (mkState PinType.auth [] ConfigurePhase.input 10
        [ '1', '2', '3', '4'] []) []).1 rfl).mpr ⟨rfl, by decide⟩⟩

/-- C6: confirming the lockout reset wipes both stored credentials
through the external store and then triggers an application restart,
leaving no other effect; deferring pops the screen, and with the blur
cleanup that follows the prompt is hidden while the retry count stays
unchanged in memory and in storage. -/
theorem lockout_reset_confirm_defer (s : PinState) :
    (step s Action.modalConfirm).1.store.pin = [] ∧
    (step s Action.modalConfirm).1.store.newPin = [] ∧
    (step s Action.modalConfirm).2 = [Event.removeKeys, Event.restart] ∧
    (step s Action.modalDefer).2 = [Event.navigationPop] ∧
    (step (step s Action.modalDefer).1 Action.blur).1.visibleResetModal
      = false ∧
    (step (step s Action.modalDefer).1 Action.blur).1.pinTryCount
      = s.pinTryCount ∧
    (step (step s Action.modalDefer).1 Action.blur).1.storedTryCount
      = s.storedTryCount :=
  ⟨rfl, rfl, rfl, rfl, rfl, rfl, rfl⟩

/-- C7: with Authenticate mode and a reported biometric capability, the
biometric attempt runs regardless of the buffer contents (its emitted
events do not depend on the buffer); success fires the result callback
with true; a failure only logs the error, changing no state, so digit
entry continues from the same screen state. -/
theorem biometric_shortcut (s : PinState) (bt : Option String)
    (hauth : s.pinType = PinType.auth) (hbt : bt ≠ none) :
    (∀ (b : List Char) (succeeded : Bool),
      (biometricEffect { s with inputPin := b } bt succeeded).2 =
        (biometricEffect s bt succeeded).2) ∧
    (biometricEffect s bt true).2 = [Event.resultCallback true] ∧
    (biometricEffect s bt false).2 = [Event.logError] ∧
    (biometricEffect s bt false).1 = s := by
  have hc : ¬ (s.pinType ≠ PinType.auth ∨ bt = none) := by
    rintro (h | h)
    · exact h hauth
    · exact hbt h
  refine ⟨fun b succeeded => ?_, ?_, ?_, ?_⟩
  · have hc1 : ¬ (({ s with inputPin := b } : PinState).pinType
        ≠ PinType.auth ∨ bt = none) := hc
    by_cases hs : succeeded <;> simp [biometricEffect, hc, hc1, hs]
  · simp [biometricEffect, hc]
  · simp [biometricEffect, hc]
  · simp [biometricEffect, hc]

/-- Witness for C7: at a concrete auth state with a capability, the
events are buffer-independent, success reports true and failure only
logs. -/
theorem biometric_shortcut_witness :
    (biometricEffect { mkState PinType.auth [] ConfigurePhase.input 0
        [ '1', '2', '3', '4'] [] with inputPin := [ '7'] }
      (some "TouchID") true).2 =
      (biometricEffect (mkState PinType.auth [] ConfigurePhase.input 0
        [ '1', '2', '3', '4'] []) (some "TouchID") true).2 ∧
    (biometricEffect (mkState PinType.auth [] ConfigurePhase.input 0
        [ '1', '2', '3', '4'] []) (some "TouchID") true).2
      = [Event.resultCallback true] ∧
    (biometricEffect (mkState PinType.auth [] ConfigurePhase.input 0
        [ '1', '2', '3', '4'] []) (some "TouchID") false).2
      = [Event.logError] :=
  ⟨(biometric_shortcut (mkState PinType.auth [] ConfigurePhase.input 0
      [ '1', '2', '3', '4'] []) (some "TouchID") rfl
      (by simp)).1 [ '7'] true,
   (biometric_shortcut (mkState PinType.auth [] ConfigurePhase.input 0
      [ '1', '2', '3', '4'] []) (some "TouchID") rfl (by simp)).2.1,
   (biometric_shortcut (mkState PinType.auth [] ConfigurePhase.input 0
      [ '1', '2', '3', '4'] []) (some "TouchID") rfl (by simp)).2.2.1⟩

/-- C8: a digit press on a full 4-digit buffer is a no-op and otherwise
appends the digit at the end; consequently, starting from the empty
buffer, after at most 4 presses the length equals the number of presses,
and after any number of presses the length never exceeds 4. -/
theorem append_digit_bounds (b : List Char) (d : Char) (ds : List Char) :
    (b.length = PIN_COUNT → handleInput b [d] = b) ∧
    (b.length < PIN_COUNT → handleInput b [d] = b ++ [d]) ∧
    (ds.length ≤ PIN_COUNT → (appendDigits [] ds).length = ds.length) ∧
    (appendDigits [] ds).length ≤ PIN_COUNT := by
  refine ⟨fun hfull => ?_, fun hlt => ?_, fun hle => ?_, ?_⟩
  · unfold handleInput
    rw [if_pos (le_of_eq hfull.symm)]
  · unfold handleInput
    rw [if_neg (by omega)]
  · have := appendDigits_length_eq ds [] (by simpa using hle)
    simpa using this
  · exact appendDigits_length_le ds [] (by decide)

/-- Witness for C8: pressing '5' on the full buffer "1234" is ignored,
pressing '3' on "12" appends it, and three presses from empty give
length 3 while nine presses still give length at most 4. -/
theorem append_digit_bounds_witness :
    handleInput [ '1', '2', '3', '4'] [ '5'] = [ '1', '2', '3', '4'] ∧
    handleInput [ '1', '2'] [ '3'] = [ '1', '2', '3'] ∧
    (appendDigits [] [ '1', '2', '3']).length = 3 ∧
    (appendDigits [] [ '1', '2', '3', '4', '5', '6', '7', '8', '9']).length
      ≤ PIN_COUNT :=
  ⟨(append_digit_bounds [ '1', '2', '3', '4'] '5' []).1 (by decide),
   (append_digit_bounds [ '1', '2'] '3' []).2.1 (by decide),
   (append_digit_bounds [] '0' [ '1', '2', '3']).2.2.1 (by decide),
   (append_digit_bounds [] '0'
      [ '1', '2', '3', '4', '5', '6', '7', '8', '9']).2.2.2⟩

/-- C9: deleting from the empty buffer leaves it empty, deleting from a
non-empty buffer removes exactly the last digit, and the resulting
length is the truncated predecessor, so it never goes below zero. -/
theorem delete_digit_behavior (b : List Char) (c : Char) :
    handleDelete [] = [] ∧
    handleDelete (b ++ [c]) = b ∧
    (handleDelete b).length = b.length - 1 := by
  have hguard : ∀ l : List Char, handleDelete l = l.dropLast := by
    intro l
    unfold handleDelete
    rw [if_neg]
    rintro ⟨h0, h4⟩
    rw [Nat.le_zero] at h0
    rw [h0] at h4
    exact absurd h4 (by decide)
  refine ⟨hguard [], ?_, ?_⟩
  · rw [hguard]
    exact List.dropLast_concat
  · rw [hguard]
    exact List.length_dropLast b

/-- C10: a biometric success reports success through the result callback
and changes nothing else: the whole state, and in particular the retry
counters, the buffer, the phase, the prompt visibility and the stored
credentials, are untouched, so a non-zero retry count is not reset. -/
theorem biometric_success_frame (s : PinState) (bt : Option String)
    (hauth : s.pinType = PinType.auth) (hbt : bt ≠ none) :
    biometricEffect s bt true = (s, [Event.resultCallback true]) ∧
    (biometricEffect s bt true).1.pinTryCount = s.pinTryCount ∧
    (biometricEffect s bt true).1.storedTryCount = s.storedTryCount ∧
    (biometricEffect s bt true).1.inputPin = s.inputPin ∧
    (biometricEffect s bt true).1.pinConfigurePhase = s.pinConfigurePhase ∧
    (biometricEffect s bt true).1.visibleResetModal = s.visibleResetModal ∧
    (biometricEffect s bt true).1.store = s.store := by
  have hc : ¬ (s.pinType ≠ PinType.auth ∨ bt = none) := by
    rintro (h | h)
    · exact h hauth
    · exact hbt h
  have hmain : biometricEffect s bt true = (s, [Event.resultCallback true]) := by
    simp [biometricEffect, hc]
  refine ⟨hmain, ?_, ?_, ?_, ?_, ?_, ?_⟩ <;> rw [hmain]

/-- Witness for C10: from retry count 5, a biometric success leaves the
count at 5 while reporting success. -/
theorem biometric_success_frame_witness :
    (biometricEffect (mkState PinType.auth [ '1'] ConfigurePhase.input 5
        [ '1', '2', '3', '4'] []) (some "FaceID") true).1.pinTryCount = 5 ∧
    (biometricEffect (mkState PinType.auth [ '1'] ConfigurePhase.input 5
        [ '1', '2', '3', '4'] []) (some "FaceID") true).2
      = [Event.resultCallback true] :=
  ⟨(biometric_success_frame (mkState PinType.auth [ '1']
      ConfigurePhase.input 5 [ '1', '2', '3', '4'] [])
      (some "FaceID") rfl (by simp)).2.1,
   by
    rw [(biometric_success_frame (mkState PinType.auth [ '1']
      ConfigurePhase.input 5 [ '1', '2', '3', '4'] [])
      (some "FaceID") rfl (by simp)).1]⟩

end PinCode
